import Mathlib

/-!
# Verification of the govtech HDB resale-price repository

Shallow embedding of the Python code in `src/` of the repository:

* `src/utils/utils.py` — `preprocess` (feature-preprocessing pipeline),
  `get_defaults`;
* `src/server/app.py` — an identical copy of `preprocess`;
* `src/api/analyst.py` — `HDBDataAnalyst._generate_valid_sql`;
* `src/api/predictor.py` — `Predictor.predict`;
* `src/api/orchestrator_tool.py` — `Orchestrator._ensure_prediction_params`;
* `src/others/archive/orchestrator (archive).py` — `Orchestrator.run`.

Python dictionaries and one-row pandas DataFrames are both modelled as
association lists `List (String × Value)` whose entries are in column /
insertion order: a one-row DataFrame is exactly an ordered map from column
names to the cell values of its single row, which is how every DataFrame in
`preprocess` is used.  External effects (the LLM, the HTTP stack, SQLite)
are passed in as explicit parameters.
-/

set_option autoImplicit false

namespace Govtech

/-- Python-level values that appear in request dictionaries and in the cells
of the one-row DataFrames built by `preprocess`:

* `str` — a Python `str`;
* `int` — a Python `int` (also covering the int64 cells pandas derives);
* `date` — a pandas `Timestamp`; `preprocess` only ever observes its
  `year` and `month` components (`.dt.year`, `.dt.month`), so only those
  are carried;
* `pyNone` — Python `None`. -/
inductive Value where
  | str (s : String)
  | int (n : Int)
  | date (year month : Int)
  | pyNone
deriving DecidableEq, Repr

/-- A Python dict / a one-row pandas DataFrame: column names with the single
row's values, in column order. -/
abbrev Row := List (String × Value)

/-- `row[k]` for a dict, respectively selecting column `k` of a one-row
DataFrame: the value at the first entry whose key is `k`, if any. -/
def lookupVal (k : String) : Row → Option Value
  | [] => Option.none
  | (k', v) :: rest => if k' = k then some v else lookupVal k rest

/-- `row[k] = v` — Python dict item assignment / pandas column assignment
`df[k] = v`: overwrite the existing column in place, or append a new column
at the end. -/
def setCol (row : Row) (k : String) (v : Value) : Row :=
  match row with
  | [] => [(k, v)]
  | (k', v') :: rest => if k' = k then (k, v) :: rest else (k', v') :: setCol rest k v

/-- `df.drop(k, axis=1)`: remove the column named `k`. -/
def dropCol (row : Row) (k : String) : Row :=
  row.filter (fun e => e.1 != k)

/-- Pandas `Timestamp` values are limited to 1677-09-21 .. 2262-04-11;
`pd.to_datetime` raises `OutOfBoundsDatetime` outside this range.  A
year-month pair (day 1) is representable exactly under this condition. -/
def tsInBounds (y m : Int) : Bool :=
  (1678 ≤ y && y ≤ 2261) || (y = 1677 && 10 ≤ m) || (y = 2262 && m ≤ 4)

/-- A nonempty all-digit character run interpreted in base 10 (the digit
fragments CPython's `strptime` matches for `%Y` and `%m`). -/
def digitsToNat? (cs : List Char) : Option Nat :=
  if cs ≠ [] ∧ cs.all Char.isDigit then
    some (cs.foldl (fun n c => 10 * n + (c.toNat - 48)) 0)
  else Option.none

/-- `s.split('-')` at the character level. -/
def splitDash : List Char → List (List Char)
  | [] => [[]]
  | c :: rest =>
    if c = '-' then [] :: splitDash rest
    else
      match splitDash rest with
      | [] => [[c]]
      | g :: gs => (c :: g) :: gs

/-- `pd.to_datetime(s, format='%Y-%m')` on a string: `%Y` matches 1–4
digits, `-` is literal, `%m` matches a 1–2 digit month 1..12, the whole
string must be consumed, and the resulting timestamp must be in bounds.
Returns the parsed (year, month) or `none` when Python raises. -/
def parseYearMonthStr (s : String) : Option (Int × Int) :=
  match splitDash s.data with
  | [ys, ms] =>
    match digitsToNat? ys, digitsToNat? ms with
    | some y, some m =>
      if 1 ≤ ys.length && ys.length ≤ 4 && 1 ≤ ms.length && ms.length ≤ 2
          && 1 ≤ m && m ≤ 12 && tsInBounds (Int.ofNat y) (Int.ofNat m) then
        some (Int.ofNat y, Int.ofNat m)
      else Option.none
    | _, _ => Option.none
  | _ => Option.none

/-- `pd.to_datetime(v, format='%Y-%m')` applied to the `month` cell: only a
string of the form `'YYYY-MM'` parses; every other value raises. -/
def parseMonthValue : Value → Option (Int × Int)
  | .str s => parseYearMonthStr s
  | _ => Option.none

/-- `pd.to_datetime(v, format='%Y')` applied to the `lease_commence_date`
cell (the docstring allows `str` or `int`; an int is stringified before
parsing): 1–4 digits giving an in-bounds year. -/
def parseYearValue : Value → Option Int
  | .str s =>
    match digitsToNat? s.data with
    | some y =>
      if 1 ≤ s.data.length && s.data.length ≤ 4 && 1678 ≤ y && y ≤ 2262 then
        some (Int.ofNat y)
      else Option.none
    | Option.none => Option.none
  | .int n => if 1678 ≤ n && n ≤ 2262 then some n else Option.none
  | _ => Option.none

/-- `str(v)` as used by `pd.get_dummies` when building dummy-column names
(`prefix + "_" + str(level)`). -/
def valueStr : Value → String
  | .str s => s
  | .int n => toString n
  | .date y m => toString y ++ "-" ++ toString m
  | .pyNone => "None"

/-- The `categorical_cols` list of `preprocess`
(src/utils/utils.py line 46). -/
def categorical_cols : List String :=
  ["town", "flat_type", "flat_model", "storey_range"]

/-- `pd.get_dummies(df[cols], columns=cols, prefix=cols, drop_first=dropFirst)`
restricted to a one-row frame `row`, which is the only way `preprocess`
calls it.  For each selected column the categorical levels are its unique
observed values — in a one-row frame exactly the one cell value — and one
indicator column `c ++ "_" ++ str(level)` (value 1) is emitted per level,
except that `drop_first=True` drops the first level of each column.  With a
single row the first level is the only level, so `drop_first=True` yields a
frame with no columns at all. -/
def getDummiesRow (row : Row) (cols : List String) (dropFirst : Bool) : Row :=
  cols.foldr (fun c acc =>
    match lookupVal c row with
    | Option.none => acc
    | some v =>
      let levels := [v]
      let kept := if dropFirst then levels.drop 1 else levels
      kept.map (fun l => (c ++ "_" ++ valueStr l, Value.int 1)) ++ acc) []

/-- `df.reindex(columns=cols, fill_value=fill)`: the result has exactly the
columns `cols` in that order; a column present in `df` keeps its value and
a column absent from `df` is filled with `fill`. -/
def reindex (row : Row) (cols : List String) (fill : Value) : Row :=
  cols.map (fun c => (c, (lookupVal c row).getD fill))

/-- The `expected_columns` list of `preprocess`, verbatim from
src/utils/utils.py line 63 (identical in src/server/app.py line 96). -/
def expected_columns : List String :=
  ["floor_area_sqm", "lease_commence_date", "year_of_transact",
   "month_of_transact", "years_between_lease_and_sale", "age_of_flat",
   "remaining_lease", "per_square_meter", "town_bedok", "town_bishan",
   "town_bukit batok", "town_bukit merah", "town_bukit panjang",
   "town_bukit timah", "town_central area", "town_choa chu kang",
   "town_clementi", "town_geylang", "town_hougang", "town_jurong east",
   "town_jurong west", "town_kallang/whampoa", "town_lim chu kang",
   "town_marine parade", "town_pasir ris", "town_punggol",
   "town_queenstown", "town_sembawang", "town_sengkang", "town_serangoon",
   "town_tampines", "town_toa payoh", "town_woodlands", "town_yishun",
   "flat_type_2-room", "flat_type_3-room", "flat_type_4-room",
   "flat_type_5-room", "flat_type_executive", "flat_type_multi generation",
   "flat_type_multi-generation", "flat_model_3gen",
   "flat_model_adjoined flat", "flat_model_apartment", "flat_model_dbss",
   "flat_model_improved", "flat_model_improved-maisonette",
   "flat_model_maisonette", "flat_model_model a",
   "flat_model_model a-maisonette", "flat_model_model a2",
   "flat_model_multi generation", "flat_model_new generation",
   "flat_model_premium apartment", "flat_model_premium apartment loft",
   "flat_model_premium maisonette", "flat_model_simplified",
   "flat_model_standard", "flat_model_terrace", "flat_model_type s1",
   "flat_model_type s2", "storey_range_01 to 05", "storey_range_04 to 06",
   "storey_range_06 to 10", "storey_range_07 to 09",
   "storey_range_10 to 12", "storey_range_11 to 15",
   "storey_range_13 to 15", "storey_range_16 to 18",
   "storey_range_16 to 20", "storey_range_19 to 21",
   "storey_range_21 to 25", "storey_range_22 to 24",
   "storey_range_25 to 27", "storey_range_26 to 30",
   "storey_range_28 to 30", "storey_range_31 to 33",
   "storey_range_31 to 35", "storey_range_34 to 36",
   "storey_range_36 to 40", "storey_range_37 to 39",
   "storey_range_40 to 42", "storey_range_43 to 45",
   "storey_range_46 to 48", "storey_range_49 to 51"]

/-- `preprocess(variables)` from src/utils/utils.py lines 4–69 (the copy in
src/server/app.py lines 37–102 is textually identical).  Statement by
statement:

* `df = pd.DataFrame([variables])` — the one-row frame is `variables`;
* line 24: parse `lease_commence_date` with format `'%Y'` (a missing key
  raises `KeyError`, an unparsable value raises — both are `none`);
* line 25: parse `month` with format `'%Y-%m'`;
* lines 28–29: `year_of_transact` / `month_of_transact` from the parsed
  month (`.dt.year` / `.dt.month`);
* line 32: drop `month`;
* lines 35–41: `years_between_lease_and_sale = year_of_transact -
  lease_commence_date.dt.year`, `age_of_flat` the same,
  `remaining_lease = 99 - age_of_flat`;
* line 43: `lease_commence_date` back to its year as an integer;
* lines 49–60: `get_dummies(df[categorical_cols], ..., drop_first=True)`
  (selection raises `KeyError` when a categorical column is absent),
  `pd.concat([df, dummies], axis=1)`, drop the categorical columns;
* line 66: reindex to `expected_columns` with `fill_value=0`.

`none` models any exception escaping the Python function; `Option.bind`
is exception propagation from one statement to the next. -/
def preprocess (vars : Row) : Option Row :=
  let df := vars
  (lookupVal "lease_commence_date" df).bind fun lcd =>
  (parseYearValue lcd).bind fun leaseYear =>
  let df := setCol df "lease_commence_date" (Value.date leaseYear 1)
  (lookupVal "month" df).bind fun mv =>
  (parseMonthValue mv).bind fun ym =>
  let y := ym.1
  let m := ym.2
  let df := setCol df "month" (Value.date y m)
  let df := setCol df "year_of_transact" (Value.int y)
  let df := setCol df "month_of_transact" (Value.int m)
  let df := dropCol df "month"
  let df := setCol df "years_between_lease_and_sale" (Value.int (y - leaseYear))
  let df := setCol df "age_of_flat" (Value.int (y - leaseYear))
  let df := setCol df "remaining_lease" (Value.int (99 - (y - leaseYear)))
  let df := setCol df "lease_commence_date" (Value.int leaseYear)
  if categorical_cols.all (fun c => (lookupVal c df).isSome) then
    let dummies := getDummiesRow df categorical_cols true
    let df := df ++ dummies
    let df := categorical_cols.foldl dropCol df
    some (reindex df expected_columns (Value.int 0))
  else Option.none

/-- A prediction-request dictionary carrying exactly the seven documented
fields (docstring of `preprocess`; `PredictionRequest` in
src/server/app.py). -/
def mkRequest (month town flat_type storey_range : String) (floor_area_sqm : Value)
    (flat_model : String) (lease_commence_date : Value) : Row :=
  [("month", Value.str month), ("town", Value.str town),
   ("flat_type", Value.str flat_type), ("storey_range", Value.str storey_range),
   ("floor_area_sqm", floor_area_sqm), ("flat_model", Value.str flat_model),
   ("lease_commence_date", lease_commence_date)]

/-- The row `preprocess` actually produces on a seven-field request whose
month parses to `(y, m)` and whose lease year parses to `ly`; `fa` is the
untouched `floor_area_sqm` value.  Every column outside the seven derived
numeric ones — `per_square_meter` and all dummy columns included — is the
reindex fill value 0. -/
def encodedRow (fa : Value) (ly y m : Int) : Row :=
  expected_columns.map (fun c =>
    (c, if c = "floor_area_sqm" then fa
        else if c = "lease_commence_date" then Value.int ly
        else if c = "year_of_transact" then Value.int y
        else if c = "month_of_transact" then Value.int m
        else if c = "years_between_lease_and_sale" then Value.int (y - ly)
        else if c = "age_of_flat" then Value.int (y - ly)
        else if c = "remaining_lease" then Value.int (99 - (y - ly))
        else Value.int 0))

/-- The seven columns of the output of `preprocess` that the transformation
actually computes; every other expected column comes from the reindex fill. -/
def transformedColumns : List String :=
  ["floor_area_sqm", "lease_commence_date", "year_of_transact",
   "month_of_transact", "years_between_lease_and_sale", "age_of_flat",
   "remaining_lease"]

/-! ## `HDBDataAnalyst._generate_valid_sql` (src/api/analyst.py lines 243–266)

The body of the loop calls `self._generate_sql_query(user_query)` — a
remote-LLM call — and `self._is_valid_sql(sql)` — an `EXPLAIN` run against
the SQLite database.  Both are external effects: the SQL statement produced
at each attempt is supplied as a function `gen : Nat → String` of the
attempt index, and the outcome of the `EXPLAIN` validation as
`valid : String → Bool`. -/

/-- The `for attempt in range(max_attempts)` loop: at each remaining
attempt, generate `gen attempt` and return it when it validates; `none`
once the range is exhausted. -/
def genLoop (gen : Nat → String) (valid : String → Bool) : Nat → Nat → Option String
  | _, 0 => Option.none
  | attempt, Nat.succ fuel =>
    let sql := gen attempt
    if valid sql then some sql else genLoop gen valid (attempt + 1) fuel

/-- The default of the `max_attempts` parameter of `_generate_valid_sql`. -/
def max_attempts_default : Nat := 3

/-- `_generate_valid_sql(user_query, max_attempts)`: run the loop starting
at attempt 0; when no attempt validates, raise
`RuntimeError(f"Failed to generate valid SQL after {max_attempts} attempts")`
(modelled as `Except.error` with the message). -/
def generate_valid_sql (gen : Nat → String) (valid : String → Bool)
    (max_attempts : Nat) : Except String String :=
  match genLoop gen valid 0 max_attempts with
  | some sql => Except.ok sql
  | Option.none =>
    Except.error ("Failed to generate valid SQL after " ++ toString max_attempts ++ " attempts")

/-! ## `Predictor.predict` (src/api/predictor.py lines 9–15) -/

/-- The outcome of running a Python expression: a value, or a raised
exception carrying `str(e)`. -/
inductive PyResult (α : Type) where
  | val (a : α)
  | exn (e : String)
deriving DecidableEq, Repr

/-- Exception propagation through successive statements of a `try` block. -/
def pyBind {α β : Type} : PyResult α → (α → PyResult β) → PyResult β
  | .exn e, _ => .exn e
  | .val a, f => f a

/-- `try: ... except Exception as e: handler` around a block that either
produces a value or raises. -/
def tryExcept {α : Type} (body : PyResult α) (handler : String → α) : α :=
  match body with
  | .val a => a
  | .exn e => handler e

/-- What `Predictor.predict` observes of a completed
`requests.post(self.url, json=payload, timeout=10)`: the HTTP status code
and the outcome of `resp.json()` (the decoded JSON dict, or the decode
exception). -/
structure HttpResponse where
  status : Nat
  jsonBody : PyResult Row
deriving DecidableEq, Repr

/-- `resp.raise_for_status()` from `requests`: raises `HTTPError` exactly
for status codes 400–499 (`Client Error`) and 500–599 (`Server Error`);
any other status returns normally. -/
def raise_for_status (r : HttpResponse) : PyResult HttpResponse :=
  if 400 ≤ r.status ∧ r.status < 500 then
    .exn (toString r.status ++ " Client Error")
  else if 500 ≤ r.status ∧ r.status < 600 then
    .exn (toString r.status ++ " Server Error")
  else .val r

/-- `Predictor.predict(payload)`.  The `payload` argument only feeds the
HTTP request; `post` is the outcome of that external request
(`.exn` covers connection failures and timeouts).  The `try` block chains
`requests.post` / `resp.raise_for_status()` / `resp.json()`, and the
`except` clause returns `{"error": str(e)}`. -/
def Predictor.predict (payload : Row) (post : PyResult HttpResponse) : Row :=
  let _ := payload
  tryExcept
    (pyBind post (fun resp =>
      pyBind (raise_for_status resp) (fun resp2 => resp2.jsonBody)))
    (fun e => [("error", Value.str e)])

/-! ## `Orchestrator.run` (src/others/archive/orchestrator (archive).py
lines 172–216)

`self.decide(user_query)` (an LLM call returning a JSON dict, lines
104–117), `self.build_prediction_payload(user_query)` (an LLM call, lines
120–169), `predictor.predict`, `analyst.query` and
`synthesizer.synthesize` are external calls; their results are supplied
through `OrchestratorEnv`.  The analyst's `QueryResult` is abstracted to
the string it is formatted to. -/

/-- One external call made by `Orchestrator.run`, recorded in order. -/
inductive CallEvent where
  | predictorPredict (payload : Row)
  | analystQuery (q : String)
  | synthesizerSynthesize
deriving DecidableEq, Repr

/-- What `Orchestrator.run` returns. -/
inductive RunResult where
  | answer (s : String)
  | noneReturn
  | keyErrorRaised
deriving DecidableEq, Repr

/-- The external collaborators of `Orchestrator.run`: the decision dict
from `decide`, the payload from `build_prediction_payload`, the results of
`predictor.predict` and `analyst.query`, and the synthesizer, taking
`(user_query, prediction, analysis, payload)` exactly as
`synthesizer.synthesize` is invoked with keyword arguments. -/
structure OrchestratorEnv where
  decision : Row
  payload : Row
  predictOut : Row
  analysisOut : String
  synthesize : String → Option Row → Option String → Option Row → String

/-- `Orchestrator.run(user_query, analyst, predictor, synthesizer)`:
read `decision["action"]` (`keyErrorRaised` when absent); on
`"prediction"` build the payload, predict, and synthesize with no
analysis; on `"analysis"` run the analyst and synthesize
`str(analysis)` with no prediction and no payload; on `"both"` do both
and synthesize everything; any other action falls off the end of the
function and returns `None`.  The second component records the predictor /
analyst / synthesizer calls in execution order. -/
def Orchestrator.run (env : OrchestratorEnv) (user_query : String) :
    RunResult × List CallEvent :=
  match lookupVal "action" env.decision with
  | Option.none => (.keyErrorRaised, [])
  | some action =>
    if action = Value.str "prediction" then
      (.answer (env.synthesize user_query (some env.predictOut) Option.none (some env.payload)),
       [.predictorPredict env.payload, .synthesizerSynthesize])
    else if action = Value.str "analysis" then
      (.answer (env.synthesize user_query Option.none (some env.analysisOut) Option.none),
       [.analystQuery user_query, .synthesizerSynthesize])
    else if action = Value.str "both" then
      (.answer (env.synthesize user_query (some env.predictOut) (some env.analysisOut) (some env.payload)),
       [.predictorPredict env.payload, .analystQuery user_query, .synthesizerSynthesize])
    else (.noneReturn, [])

/-! ## `Orchestrator._ensure_prediction_params`
(src/api/orchestrator_tool.py lines 63–78) -/

/-- `get_defaults()` from src/utils/utils.py lines 105–114; the
orchestrator stores it as `self.DEFAULTS`. -/
def DEFAULTS : Row :=
  [("month", Value.str "2025-01"), ("town", Value.str "ang mo kio"),
   ("flat_type", Value.str "4-room"), ("flat_model", Value.str "improved"),
   ("storey_range", Value.str "07 to 09"), ("floor_area_sqm", Value.int 90),
   ("lease_commence_date", Value.int 2025)]

/-- Python truthiness (`bool(v)`) for the modelled values: `None`, the
empty string and the integer 0 are falsy. -/
def Value.isTruthy : Value → Bool
  | .str s => s ≠ ""
  | .int n => n ≠ 0
  | .date _ _ => true
  | .pyNone => false

/-- One iteration of the `for key, default_value in self.DEFAULTS.items()`
loop: `if key not in final_params or final_params[key] is None or
final_params[key] == "": final_params[key] = default_value`. -/
def fillStep (fp : Row) (kv : String × Value) : Row :=
  match lookupVal kv.1 fp with
  | Option.none => setCol fp kv.1 kv.2
  | some v =>
    if v = Value.pyNone ∨ v = Value.str "" then setCol fp kv.1 kv.2 else fp

/-- `Orchestrator._ensure_prediction_params(params)`: copy the params;
`if "town" not in final_params or not final_params["town"]` set
`final_params["town"] = self.DEFAULTS["town"]` (i.e. `"ang mo kio"`); then
run the defaults-filling loop over `self.DEFAULTS`. -/
def ensure_prediction_params (params : Row) : Row :=
  let final_params := params
  let final_params :=
    match lookupVal "town" final_params with
    | Option.none => setCol final_params "town" (Value.str "ang mo kio")
    | some v =>
      if v.isTruthy then final_params
      else setCol final_params "town" (Value.str "ang mo kio")
  DEFAULTS.foldl fillStep final_params

/-! ## Helper lemmas -/

theorem lookupVal_nil (k : String) : lookupVal k [] = Option.none := rfl

theorem lookupVal_cons_self (k : String) (v : Value) (rest : Row) :
    lookupVal k ((k, v) :: rest) = some v := by
  simp [lookupVal]

theorem lookupVal_cons_ne (k k' : String) (v : Value) (rest : Row) (h : ¬ k' = k) :
    lookupVal k ((k', v) :: rest) = lookupVal k rest := by
  simp [lookupVal, h]

theorem setCol_nil (k : String) (v : Value) : setCol [] k v = [(k, v)] := rfl

theorem setCol_cons_self (k : String) (v v' : Value) (rest : Row) :
    setCol ((k, v') :: rest) k v = (k, v) :: rest := by
  simp [setCol]

theorem setCol_cons_ne (k k' : String) (v v' : Value) (rest : Row) (h : ¬ k' = k) :
    setCol ((k', v') :: rest) k v = (k', v') :: setCol rest k v := by
  simp [setCol, h]

theorem dropCol_nil (k : String) : dropCol [] k = [] := rfl

theorem dropCol_cons_self (k : String) (v : Value) (rest : Row) :
    dropCol ((k, v) :: rest) k = dropCol rest k := by
  simp [dropCol, List.filter_cons]

theorem dropCol_cons_ne (k k' : String) (v : Value) (rest : Row) (h : ¬ k' = k) :
    dropCol ((k', v) :: rest) k = (k', v) :: dropCol rest k := by
  simp [dropCol, List.filter_cons, bne_iff_ne, h]

theorem getDummiesRow_dropFirst (row : Row) (cols : List String) :
    getDummiesRow row cols true = [] := by
  induction cols with
  | nil => rfl
  | cons c cs ih =>
    unfold getDummiesRow at ih ⊢
    simp only [List.foldr_cons]
    cases lookupVal c row
    · exact ih
    · exact ih

/-- Master characterisation: on a seven-field request whose month parses to
`(y, m)` and whose lease year parses to `ly`, `preprocess` succeeds and
returns exactly `encodedRow fa ly y m`. -/
theorem preprocess_mkRequest_eq (ms town ft sr fm : String) (fa lc : Value) (y m ly : Int)
    (hm : parseMonthValue (Value.str ms) = some (y, m))
    (hl : parseYearValue lc = some ly) :
    preprocess (mkRequest ms town ft sr fa fm lc) = some (encodedRow fa ly y m) := by
  simp +decide only [preprocess, mkRequest, encodedRow, expected_columns, categorical_cols,
    reindex, hl, hm, lookupVal_cons_self, lookupVal_cons_ne, lookupVal_nil,
    setCol_nil, setCol_cons_self, setCol_cons_ne, dropCol_nil, dropCol_cons_self,
    dropCol_cons_ne, getDummiesRow_dropFirst, List.map_cons, List.map_nil,
    List.foldl_cons, List.foldl_nil, List.all_cons, List.all_nil, Option.isSome_some,
    List.append_nil, Option.getD_some, Option.getD_none, Bool.and_true, Bool.true_and,
    if_true, if_false, Option.some_bind, Option.none_bind]

theorem lookupVal_map_keys_mem (f : String → Value) (cols : List String) (c : String)
    (h : c ∈ cols) :
    lookupVal c (cols.map (fun d => (d, f d))) = some (f c) := by
  induction cols with
  | nil => cases h
  | cons d ds ih =>
    by_cases hd : d = c
    · subst hd
      simp [List.map_cons, lookupVal_cons_self]
    · rw [List.map_cons, lookupVal_cons_ne _ _ _ _ hd]
      exact ih ((List.mem_cons.mp h).resolve_left (fun he => hd he.symm))

theorem lookupVal_map_keys_notmem (f : String → Value) (cols : List String) (c : String)
    (h : ¬ c ∈ cols) :
    lookupVal c (cols.map (fun d => (d, f d))) = Option.none := by
  induction cols with
  | nil => rfl
  | cons d ds ih =>
    have hd : ¬ d = c := fun he => h (he ▸ List.mem_cons_self d ds)
    rw [List.map_cons, lookupVal_cons_ne _ _ _ _ hd]
    exact ih (fun hm => h (List.mem_cons_of_mem d hm))

/-! ## Claim C1 -/

/-- C1 (amended): for every valid prediction request — the seven-field
dict with a month of the form 'YYYY-MM' parsing to `(y, m)` and a lease
commencement year parsing to `ly` — `preprocess` returns a single row
whose columns are exactly the **85** names of `expected_columns`, in
exactly that order, regardless of the categorical values in the request;
every expected column the transformation does not produce is filled
with 0. -/
theorem preprocess_columns_spec (ms town ft sr fm : String) (fa lc : Value) (y m ly : Int)
    (hm : parseMonthValue (Value.str ms) = some (y, m))
    (hl : parseYearValue lc = some ly) :
    ∃ out, preprocess (mkRequest ms town ft sr fa fm lc) = some out
      ∧ out.map Prod.fst = expected_columns
      ∧ expected_columns.length = 85
      ∧ ∀ c ∈ expected_columns, ¬ c ∈ transformedColumns →
          lookupVal c out = some (Value.int 0) := by
  refine ⟨encodedRow fa ly y m,
    preprocess_mkRequest_eq ms town ft sr fm fa lc y m ly hm hl, ?_, by decide, ?_⟩
  · rw [encodedRow, List.map_map]
    exact List.map_id'' (fun _ => rfl) expected_columns
  · intro c hc hnc
    rw [encodedRow, lookupVal_map_keys_mem _ _ _ hc]
    simp only [transformedColumns, List.mem_cons, List.not_mem_nil, not_or, or_false] at hnc
    obtain ⟨h1, h2, h3, h4, h5, h6, h7⟩ := hnc
    simp [h1, h2, h3, h4, h5, h6, h7]

/-- C1 witness: the theorem instantiated at a concrete request. -/
theorem preprocess_columns_spec_witness :
    ∃ out, preprocess (mkRequest "2025-01" "bedok" "4-room" "07 to 09" (Value.int 90)
        "improved" (Value.int 2019)) = some out
      ∧ out.map Prod.fst = expected_columns
      ∧ expected_columns.length = 85
      ∧ ∀ c ∈ expected_columns, ¬ c ∈ transformedColumns →
          lookupVal c out = some (Value.int 0) :=
  preprocess_columns_spec "2025-01" "bedok" "4-room" "07 to 09" "improved"
    (Value.int 90) (Value.int 2019) 2025 1 2019 (by decide) (by decide)

/-- C1 counterexample: the output of `preprocess` on a concrete valid
request has 85 columns, so its columns are not 86 names as the claim
counts them. -/
theorem preprocess_columns_count_ce :
    (preprocess (mkRequest "2025-01" "bedok" "4-room" "07 to 09" (Value.int 90)
        "improved" (Value.int 2019))).map List.length = some 85
    ∧ expected_columns.length = 85 ∧ ¬ (85 = 86) := by decide

/-! ## Claims C2, C3, C5, C8 -/

/-- C2 (code-bug evaluation): on a concrete valid request with
town='bedok', flat_type='4-room', flat_model='improved',
storey_range='07 to 09', every dummy column named for the request's own
categorical values equals 0, not 1 — `get_dummies(..., drop_first=True)`
on the one-row frame drops each column's only observed level, so no dummy
is ever set. -/
theorem preprocess_dummies_all_zero :
    (preprocess (mkRequest "2025-01" "bedok" "4-room" "07 to 09" (Value.int 90)
        "improved" (Value.int 2019))).bind (lookupVal "town_bedok") = some (Value.int 0)
    ∧ (preprocess (mkRequest "2025-01" "bedok" "4-room" "07 to 09" (Value.int 90)
        "improved" (Value.int 2019))).bind (lookupVal "flat_type_4-room") = some (Value.int 0)
    ∧ (preprocess (mkRequest "2025-01" "bedok" "4-room" "07 to 09" (Value.int 90)
        "improved" (Value.int 2019))).bind (lookupVal "flat_model_improved") = some (Value.int 0)
    ∧ (preprocess (mkRequest "2025-01" "bedok" "4-room" "07 to 09" (Value.int 90)
        "improved" (Value.int 2019))).bind (lookupVal "storey_range_07 to 09") = some (Value.int 0)
    ∧ "town_bedok" ∈ expected_columns := by decide

/-- C3: on every valid request with transaction year `y` and lease
commencement year `ly`, the output row has
years_between_lease_and_sale = y - ly, age_of_flat = y - ly and
remaining_lease = 99 - (y - ly); hence age_of_flat + remaining_lease = 99
in every output. -/
theorem preprocess_lease_arithmetic (ms town ft sr fm : String) (fa lc : Value) (y m ly : Int)
    (hm : parseMonthValue (Value.str ms) = some (y, m))
    (hl : parseYearValue lc = some ly) :
    ∃ out, preprocess (mkRequest ms town ft sr fa fm lc) = some out
      ∧ lookupVal "years_between_lease_and_sale" out = some (Value.int (y - ly))
      ∧ lookupVal "age_of_flat" out = some (Value.int (y - ly))
      ∧ lookupVal "remaining_lease" out = some (Value.int (99 - (y - ly)))
      ∧ (y - ly) + (99 - (y - ly)) = 99 := by
  refine ⟨encodedRow fa ly y m,
    preprocess_mkRequest_eq ms town ft sr fm fa lc y m ly hm hl, ?_, ?_, ?_, by ring⟩
  · rw [encodedRow, lookupVal_map_keys_mem _ _ _ (by decide)]
    simp +decide
  · rw [encodedRow, lookupVal_map_keys_mem _ _ _ (by decide)]
    simp +decide
  · rw [encodedRow, lookupVal_map_keys_mem _ _ _ (by decide)]
    simp +decide

theorem preprocess_lease_arithmetic_witness :
    ∃ out, preprocess (mkRequest "2025-01" "bedok" "4-room" "07 to 09" (Value.int 90)
        "improved" (Value.int 2019)) = some out
      ∧ lookupVal "years_between_lease_and_sale" out = some (Value.int (2025 - 2019))
      ∧ lookupVal "age_of_flat" out = some (Value.int (2025 - 2019))
      ∧ lookupVal "remaining_lease" out = some (Value.int (99 - (2025 - 2019)))
      ∧ (2025 - 2019 : Int) + (99 - (2025 - 2019)) = 99 :=
  preprocess_lease_arithmetic "2025-01" "bedok" "4-room" "07 to 09" "improved"
    (Value.int 90) (Value.int 2019) 2025 1 2019 (by decide) (by decide)

/-- C5: on every valid request whose month string parses to `(y, m)`,
the output row has year_of_transact = y and month_of_transact = m, and
the original `month` column is absent from the output. -/
theorem preprocess_month_split (ms town ft sr fm : String) (fa lc : Value) (y m ly : Int)
    (hm : parseMonthValue (Value.str ms) = some (y, m))
    (hl : parseYearValue lc = some ly) :
    ∃ out, preprocess (mkRequest ms town ft sr fa fm lc) = some out
      ∧ lookupVal "year_of_transact" out = some (Value.int y)
      ∧ lookupVal "month_of_transact" out = some (Value.int m)
      ∧ lookupVal "month" out = Option.none
      ∧ ¬ "month" ∈ out.map Prod.fst := by
  refine ⟨encodedRow fa ly y m,
    preprocess_mkRequest_eq ms town ft sr fm fa lc y m ly hm hl, ?_, ?_, ?_, ?_⟩
  · rw [encodedRow, lookupVal_map_keys_mem _ _ _ (by decide)]
    simp +decide
  · rw [encodedRow, lookupVal_map_keys_mem _ _ _ (by decide)]
    simp +decide
  · rw [encodedRow]
    exact lookupVal_map_keys_notmem _ _ _ (by decide)
  · have hcols : List.map Prod.fst (encodedRow fa ly y m) = expected_columns := by
      rw [encodedRow, List.map_map]
      exact List.map_id'' (fun _ => rfl) expected_columns
    rw [hcols]
    decide

theorem preprocess_month_split_witness :
    ∃ out, preprocess (mkRequest "2025-01" "bedok" "4-room" "07 to 09" (Value.int 90)
        "improved" (Value.int 2019)) = some out
      ∧ lookupVal "year_of_transact" out = some (Value.int 2025)
      ∧ lookupVal "month_of_transact" out = some (Value.int 1)
      ∧ lookupVal "month" out = Option.none
      ∧ ¬ "month" ∈ out.map Prod.fst :=
  preprocess_month_split "2025-01" "bedok" "4-room" "07 to 09" "improved"
    (Value.int 90) (Value.int 2019) 2025 1 2019 (by decide) (by decide)

/-- C8: `per_square_meter` appears in `expected_columns` but is never
computed by the transformation, so the reindex fill supplies 0 for it on
every valid request. -/
theorem preprocess_per_square_meter_zero (ms town ft sr fm : String) (fa lc : Value) (y m ly : Int)
    (hm : parseMonthValue (Value.str ms) = some (y, m))
    (hl : parseYearValue lc = some ly) :
    "per_square_meter" ∈ expected_columns
    ∧ ∃ out, preprocess (mkRequest ms town ft sr fa fm lc) = some out
        ∧ lookupVal "per_square_meter" out = some (Value.int 0) := by
  refine ⟨by decide, encodedRow fa ly y m,
    preprocess_mkRequest_eq ms town ft sr fm fa lc y m ly hm hl, ?_⟩
  rw [encodedRow, lookupVal_map_keys_mem _ _ _ (by decide)]
  simp +decide

theorem preprocess_per_square_meter_zero_witness :
    "per_square_meter" ∈ expected_columns
    ∧ ∃ out, preprocess (mkRequest "2025-01" "bedok" "4-room" "07 to 09" (Value.int 90)
        "improved" (Value.int 2019)) = some out
        ∧ lookupVal "per_square_meter" out = some (Value.int 0) :=
  preprocess_per_square_meter_zero "2025-01" "bedok" "4-room" "07 to 09" "improved"
    (Value.int 90) (Value.int 2019) 2025 1 2019 (by decide) (by decide)

theorem lookupVal_setCol (p : Row) (k k' : String) (v : Value) :
    lookupVal k (setCol p k' v) = if k' = k then some v else lookupVal k p := by
  induction p with
  | nil =>
    rw [setCol_nil]
    by_cases h : k' = k
    · rw [if_pos h, h, lookupVal_cons_self]
    · rw [if_neg h, lookupVal_cons_ne _ _ _ _ h]
  | cons e rest ih =>
    obtain ⟨a, b⟩ := e
    by_cases ha : a = k'
    · rw [ha, setCol_cons_self]
      by_cases h : k' = k
      · rw [if_pos h, h, lookupVal_cons_self]
      · rw [if_neg h, lookupVal_cons_ne _ _ _ _ h, lookupVal_cons_ne _ _ _ _ h]
    · rw [setCol_cons_ne _ _ _ _ _ ha]
      by_cases hk : a = k
      · rw [hk, lookupVal_cons_self, lookupVal_cons_self,
          if_neg (fun hh : k' = k => ha (hk.trans hh.symm))]
      · rw [lookupVal_cons_ne _ _ _ _ hk, lookupVal_cons_ne _ _ _ _ hk, ih]

theorem lookupVal_dropCol (p : Row) (k k' : String) :
    lookupVal k (dropCol p k') = if k' = k then Option.none else lookupVal k p := by
  induction p with
  | nil =>
    rw [dropCol_nil]
    by_cases h : k' = k
    · rw [if_pos h, lookupVal_nil]
    · rw [if_neg h]
  | cons e rest ih =>
    obtain ⟨a, b⟩ := e
    by_cases ha : a = k'
    · rw [ha, dropCol_cons_self, ih]
      by_cases h : k' = k
      · rw [if_pos h, if_pos h]
      · rw [if_neg h, if_neg h, lookupVal_cons_ne _ _ _ _ h]
    · rw [dropCol_cons_ne _ _ _ _ ha]
      by_cases hk : a = k
      · rw [hk, lookupVal_cons_self, lookupVal_cons_self,
          if_neg (fun hh : k' = k => ha (hk.trans hh.symm))]
      · rw [lookupVal_cons_ne _ _ _ _ hk, lookupVal_cons_ne _ _ _ _ hk, ih]

theorem lookupVal_append (p q : Row) (k : String) :
    lookupVal k (p ++ q) =
      match lookupVal k p with
      | some v => some v
      | Option.none => lookupVal k q := by
  induction p with
  | nil => rw [List.nil_append, lookupVal_nil]
  | cons e rest ih =>
    obtain ⟨a, b⟩ := e
    by_cases hk : a = k
    · rw [List.cons_append, hk, lookupVal_cons_self, lookupVal_cons_self]
    · rw [List.cons_append, lookupVal_cons_ne _ _ _ _ hk, lookupVal_cons_ne _ _ _ _ hk, ih]

theorem lookupVal_setCol_congr (p q : Row) (key : String) (v : Value)
    (h : ∀ k, lookupVal k p = lookupVal k q) (k : String) :
    lookupVal k (setCol p key v) = lookupVal k (setCol q key v) := by
  rw [lookupVal_setCol, lookupVal_setCol, h k]

theorem lookupVal_dropCol_congr (p q : Row) (key : String)
    (h : ∀ k, lookupVal k p = lookupVal k q) (k : String) :
    lookupVal k (dropCol p key) = lookupVal k (dropCol q key) := by
  rw [lookupVal_dropCol, lookupVal_dropCol, h k]

theorem foldl_dropCol_congr (cols : List String) (p q : Row)
    (h : ∀ k, lookupVal k p = lookupVal k q) :
    ∀ k, lookupVal k (cols.foldl dropCol p) = lookupVal k (cols.foldl dropCol q) := by
  induction cols generalizing p q with
  | nil => exact h
  | cons c cs ih =>
    intro k
    rw [List.foldl_cons, List.foldl_cons]
    exact ih (dropCol p c) (dropCol q c) (lookupVal_dropCol_congr p q c h) k

theorem reindex_congr (p q : Row) (cols : List String) (fill : Value)
    (h : ∀ k, lookupVal k p = lookupVal k q) :
    reindex p cols fill = reindex q cols fill := by
  unfold reindex
  congr 1
  funext c
  rw [h c]

/-! ## Claim C7 -/

/-- C7: `preprocess` is deterministic and stateless — its result is a
function of the key-to-value mapping of its input dictionary alone (two
inputs that are equal as Python dicts, i.e. agree on every lookup, give
equal feature rows), and being a pure function of its argument it reads
and writes no state outside it and leaves the input unchanged. -/
theorem preprocess_deterministic (p q : Row) (h : ∀ k, lookupVal k p = lookupVal k q) :
    preprocess p = preprocess q := by
  simp only [preprocess]
  rw [h "lease_commence_date"]
  refine Option.bind_congr (fun lcd _ => ?_)
  refine Option.bind_congr (fun ly _ => ?_)
  have h1 := lookupVal_setCol_congr p q "lease_commence_date" (Value.date ly 1) h
  rw [h1 "month"]
  refine Option.bind_congr (fun mv _ => ?_)
  refine Option.bind_congr (fun ym _ => ?_)
  have h2 := lookupVal_setCol_congr _ _ "month" (Value.date ym.1 ym.2) h1
  have h3 := lookupVal_setCol_congr _ _ "year_of_transact" (Value.int ym.1) h2
  have h4 := lookupVal_setCol_congr _ _ "month_of_transact" (Value.int ym.2) h3
  have h5 := lookupVal_dropCol_congr _ _ "month" h4
  have h6 := lookupVal_setCol_congr _ _ "years_between_lease_and_sale"
    (Value.int (ym.1 - ly)) h5
  have h7 := lookupVal_setCol_congr _ _ "age_of_flat" (Value.int (ym.1 - ly)) h6
  have h8 := lookupVal_setCol_congr _ _ "remaining_lease"
    (Value.int (99 - (ym.1 - ly))) h7
  have h9 := lookupVal_setCol_congr _ _ "lease_commence_date" (Value.int ly) h8
  have hfun := funext (fun c => congrArg Option.isSome (h9 c))
  rw [hfun, getDummiesRow_dropFirst, getDummiesRow_dropFirst, List.append_nil,
    List.append_nil]
  refine if_congr Iff.rfl ?_ rfl
  exact congrArg some (reindex_congr _ _ _ _ (foldl_dropCol_congr _ _ _ h9))


/-- C7 witness: a concrete request and the same request with a shadowed
duplicate entry appended agree on every lookup, hence preprocess equally. -/
theorem preprocess_deterministic_witness :
    preprocess (mkRequest "2025-01" "bedok" "4-room" "07 to 09" (Value.int 90)
        "improved" (Value.int 2019))
      = preprocess (mkRequest "2025-01" "bedok" "4-room" "07 to 09" (Value.int 90)
          "improved" (Value.int 2019) ++ [("month", Value.str "1900-01")]) :=
  preprocess_deterministic _ _ (fun k => by
    simp only [mkRequest, List.cons_append, List.nil_append, lookupVal]
    split_ifs <;> rfl)

theorem genLoop_all_invalid (gen : Nat → String) (valid : String → Bool) (a n : Nat)
    (h : ∀ i, a ≤ i → i < a + n → valid (gen i) = false) :
    genLoop gen valid a n = Option.none := by
  induction n generalizing a with
  | zero => rfl
  | succ k ih =>
    show (if valid (gen a) = true then some (gen a) else genLoop gen valid (a + 1) k)
      = Option.none
    rw [h a (Nat.le_refl a) (by omega)]
    simp only [Bool.false_eq_true, if_false]
    exact ih (a + 1) (fun i h1 h2 => h i (by omega) (by omega))

theorem genLoop_first_valid (gen : Nat → String) (valid : String → Bool) (i : Nat)
    (hv : valid (gen i) = true) :
    ∀ a n, a ≤ i → i < a + n → (∀ j, a ≤ j → j < i → valid (gen j) = false) →
      genLoop gen valid a n = some (gen i) := by
  intro a n
  induction n generalizing a with
  | zero => omega
  | succ k ih =>
    intro ha hi hmin
    show (if valid (gen a) = true then some (gen a) else genLoop gen valid (a + 1) k)
      = some (gen i)
    by_cases hae : i = a
    · subst hae
      rw [hv]
      simp only [if_true]
    · rw [hmin a (Nat.le_refl a) (by omega)]
      simp only [Bool.false_eq_true, if_false]
      exact ih (a + 1) (by omega) (by omega) (fun j h1 h2 => hmin j (by omega) h2)

theorem genLoop_gen_congr (gen gen' : Nat → String) (valid : String → Bool) (a n : Nat)
    (h : ∀ i, a ≤ i → i < a + n → gen' i = gen i) :
    genLoop gen' valid a n = genLoop gen valid a n := by
  induction n generalizing a with
  | zero => rfl
  | succ k ih =>
    show (if valid (gen' a) = true then some (gen' a) else genLoop gen' valid (a + 1) k)
      = (if valid (gen a) = true then some (gen a) else genLoop gen valid (a + 1) k)
    rw [h a (Nat.le_refl a) (by omega)]
    rw [ih (a + 1) (fun i h1 h2 => h i (by omega) (by omega))]

/-! ## Claim C4 -/

/-- C4: `_generate_valid_sql` asks the LLM for SQL at most `max_attempts`
times (the parameter defaults to 3): it returns the first generated
statement that passes the EXPLAIN validation, raises `RuntimeError` when
none of the `max_attempts` generated statements validates, and its result
never depends on what the generator would produce beyond the first
`max_attempts` attempts. -/
theorem generate_valid_sql_spec (gen : Nat → String) (valid : String → Bool)
    (max_attempts : Nat) :
    max_attempts_default = 3
    ∧ (∀ i, i < max_attempts → valid (gen i) = true →
        (∀ j, j < i → valid (gen j) = false) →
        generate_valid_sql gen valid max_attempts = Except.ok (gen i))
    ∧ ((∀ i, i < max_attempts → valid (gen i) = false) →
        generate_valid_sql gen valid max_attempts =
          Except.error ("Failed to generate valid SQL after "
            ++ toString max_attempts ++ " attempts"))
    ∧ (∀ gen' : Nat → String, (∀ i, i < max_attempts → gen' i = gen i) →
        generate_valid_sql gen' valid max_attempts
          = generate_valid_sql gen valid max_attempts) := by
  refine ⟨rfl, ?_, ?_, ?_⟩
  · intro i hi hv hmin
    unfold generate_valid_sql
    rw [genLoop_first_valid gen valid i hv 0 max_attempts (Nat.zero_le i) (by omega)
      (fun j _ hj => hmin j hj)]
  · intro h
    unfold generate_valid_sql
    rw [genLoop_all_invalid gen valid 0 max_attempts (fun i _ hi => h i (by omega))]
  · intro gen' h
    unfold generate_valid_sql
    rw [genLoop_gen_congr gen gen' valid 0 max_attempts (fun i _ hi => h i (by omega))]

/-- C4 witness: concrete generator whose second attempt validates. -/
theorem generate_valid_sql_spec_witness :
    generate_valid_sql (fun i => if i = 1 then "SELECT 1" else "oops")
      (fun s => s == "SELECT 1") 3 = Except.ok "SELECT 1" := by
  have h := (generate_valid_sql_spec (fun i => if i = 1 then "SELECT 1" else "oops")
    (fun s => s == "SELECT 1") 3).2.1 1 (by decide) (by decide) (by decide)
  simpa using h

/-! ## Claim C9 -/

/-- C9 counterexample: a non-2xx (here 303) response raises no exception —
`raise_for_status` only raises for 4xx/5xx — so `predict` returns the
decoded body, which is not an error dict. -/
theorem predict_non2xx_ce :
    Predictor.predict [] (PyResult.val ⟨303, PyResult.val [("predicted_price", Value.int 500000)]⟩)
      = [("predicted_price", Value.int 500000)]
    ∧ ∀ e : String, ¬ ([("predicted_price", Value.int 500000)] : Row) = [("error", Value.str e)] := by
  constructor
  · rfl
  · intro e he
    have : "predicted_price" = "error" := by
      injection he with h1 h2
      injection h1 with h3 h4
    exact absurd this (by decide)

/-- C9 (amended): `Predictor.predict` is total over the outcome of the
HTTP call — it always returns a dict and never raises; when no exception
occurs (connection ok, status outside 400–599, body decodes) the result is
the decoded JSON body, and on any exception (connection failure or
timeout, 4xx or 5xx status, JSON decode error) it returns
`{"error": str(e)}` for the raised exception `e`. -/
theorem predict_total_spec (payload : Row) (post : PyResult HttpResponse) :
    (∀ e, post = PyResult.exn e →
        Predictor.predict payload post = [("error", Value.str e)])
    ∧ (∀ r, post = PyResult.val r → 400 ≤ r.status → r.status < 600 →
        ∃ e, Predictor.predict payload post = [("error", Value.str e)])
    ∧ (∀ r e, post = PyResult.val r → ¬ (400 ≤ r.status ∧ r.status < 600) →
        r.jsonBody = PyResult.exn e →
        Predictor.predict payload post = [("error", Value.str e)])
    ∧ (∀ r d, post = PyResult.val r → ¬ (400 ≤ r.status ∧ r.status < 600) →
        r.jsonBody = PyResult.val d →
        Predictor.predict payload post = d) := by
  refine ⟨?_, ?_, ?_, ?_⟩
  · intro e he
    subst he
    rfl
  · intro r hr h4 h6
    subst hr
    by_cases hc : r.status < 500
    · refine ⟨toString r.status ++ " Client Error", ?_⟩
      simp [Predictor.predict, pyBind, raise_for_status, tryExcept, h4, hc]
    · refine ⟨toString r.status ++ " Server Error", ?_⟩
      have h5 : 500 ≤ r.status := by omega
      simp [Predictor.predict, pyBind, raise_for_status, tryExcept, h4, hc, h5, h6]
  · intro r e hr hn hj
    subst hr
    have hc1 : ¬ (400 ≤ r.status ∧ r.status < 500) := fun hh => hn ⟨hh.1, by omega⟩
    have hc2 : ¬ (500 ≤ r.status ∧ r.status < 600) := fun hh => hn ⟨by omega, hh.2⟩
    simp [Predictor.predict, pyBind, raise_for_status, tryExcept, hc1, hc2, hj]
  · intro r d hr hn hj
    subst hr
    have hc1 : ¬ (400 ≤ r.status ∧ r.status < 500) := fun hh => hn ⟨hh.1, by omega⟩
    have hc2 : ¬ (500 ≤ r.status ∧ r.status < 600) := fun hh => hn ⟨by omega, hh.2⟩
    simp [Predictor.predict, pyBind, raise_for_status, tryExcept, hc1, hc2, hj]

/-- C9 witness: a 200 response with a decoded body. -/
theorem predict_total_spec_witness :
    Predictor.predict [] (PyResult.val ⟨200, PyResult.val [("predicted_price", Value.int 7)]⟩)
      = [("predicted_price", Value.int 7)] :=
  (predict_total_spec [] (PyResult.val ⟨200, PyResult.val [("predicted_price", Value.int 7)]⟩)).2.2.2
    ⟨200, PyResult.val [("predicted_price", Value.int 7)]⟩ [("predicted_price", Value.int 7)]
    rfl (by decide) rfl

/-! ## Claim C6 -/

/-- C6: `Orchestrator.run` routes by the decided action — `"prediction"`
calls only the predictor, `"analysis"` only the analyst, `"both"` calls
both — and in all three cases passes the collected outputs to the
synthesizer and returns the synthesized answer. -/
theorem run_routes (env : OrchestratorEnv) (q : String) :
    (lookupVal "action" env.decision = some (Value.str "prediction") →
      Orchestrator.run env q =
        (RunResult.answer (env.synthesize q (some env.predictOut) Option.none (some env.payload)),
         [CallEvent.predictorPredict env.payload, CallEvent.synthesizerSynthesize]))
    ∧ (lookupVal "action" env.decision = some (Value.str "analysis") →
      Orchestrator.run env q =
        (RunResult.answer (env.synthesize q Option.none (some env.analysisOut) Option.none),
         [CallEvent.analystQuery q, CallEvent.synthesizerSynthesize]))
    ∧ (lookupVal "action" env.decision = some (Value.str "both") →
      Orchestrator.run env q =
        (RunResult.answer (env.synthesize q (some env.predictOut) (some env.analysisOut)
            (some env.payload)),
         [CallEvent.predictorPredict env.payload, CallEvent.analystQuery q,
          CallEvent.synthesizerSynthesize])) := by
  refine ⟨?_, ?_, ?_⟩ <;> intro h <;> simp [Orchestrator.run, h]

/-- C6 witness: a concrete environment deciding the analysis action. -/
theorem run_routes_witness :
    Orchestrator.run
      { decision := [("action", Value.str "analysis")], payload := [],
        predictOut := [], analysisOut := "trend report",
        synthesize := fun _ _ a _ => "synthesized:" ++ (a.getD "") }
      "what are the trends" =
      (RunResult.answer ("synthesized:" ++ "trend report"),
       [CallEvent.analystQuery "what are the trends", CallEvent.synthesizerSynthesize]) :=
  (run_routes _ "what are the trends").2.1 rfl


theorem lookupVal_fillStep_self (fp : Row) (k : String) (dv : Value) :
    lookupVal k (fillStep fp (k, dv)) =
      some (match lookupVal k fp with
            | Option.none => dv
            | some v => if v = Value.pyNone ∨ v = Value.str "" then dv else v) := by
  cases h : lookupVal k fp with
  | none => simp [fillStep, h, lookupVal_setCol]
  | some v =>
    by_cases hb : v = Value.pyNone ∨ v = Value.str ""
    · simp [fillStep, h, hb, lookupVal_setCol]
    · simp [fillStep, h, hb]

theorem lookupVal_fillStep_ne (fp : Row) (kv : String × Value) (k : String)
    (h : ¬ kv.1 = k) :
    lookupVal k (fillStep fp kv) = lookupVal k fp := by
  cases hkv : lookupVal kv.1 fp with
  | none => simp [fillStep, hkv, lookupVal_setCol, h]
  | some v =>
    by_cases hb : v = Value.pyNone ∨ v = Value.str ""
    · simp [fillStep, hkv, hb, lookupVal_setCol, h]
    · simp [fillStep, hkv, hb]

theorem lookupVal_foldl_fill_notmem (ds : List (String × Value)) (fp : Row) (k : String)
    (h : ∀ p ∈ ds, ¬ p.1 = k) :
    lookupVal k (ds.foldl fillStep fp) = lookupVal k fp := by
  induction ds generalizing fp with
  | nil => rfl
  | cons d tl ih =>
    rw [List.foldl_cons, ih (fillStep fp d) (fun p hp => h p (List.mem_cons_of_mem d hp)),
      lookupVal_fillStep_ne fp d k (h d (List.mem_cons_self d tl))]

theorem lookupVal_foldl_fill_mem (ds : List (String × Value)) (fp : Row) (k : String)
    (dv : Value) (hnd : (ds.map Prod.fst).Nodup) (hm : (k, dv) ∈ ds) :
    lookupVal k (ds.foldl fillStep fp) =
      some (match lookupVal k fp with
            | Option.none => dv
            | some v => if v = Value.pyNone ∨ v = Value.str "" then dv else v) := by
  induction ds generalizing fp with
  | nil => cases hm
  | cons d tl ih =>
    obtain ⟨dk, dv'⟩ := d
    rw [List.map_cons, List.nodup_cons] at hnd
    rcases List.mem_cons.mp hm with heq | htl
    · injection heq with hk hv
      subst hk
      subst hv
      have hknotin : ∀ p ∈ tl, ¬ p.1 = k := by
        intro p hp hpk
        have hmem := List.mem_map_of_mem Prod.fst hp
        rw [hpk] at hmem
        exact hnd.1 hmem
      rw [List.foldl_cons,
        lookupVal_foldl_fill_notmem tl (fillStep fp (k, dv)) k hknotin,
        lookupVal_fillStep_self]
    · have hdk : ¬ (dk, dv').1 = k := by
        intro hh
        have hmem := List.mem_map_of_mem Prod.fst htl
        rw [← hh] at hmem
        exact hnd.1 hmem
      rw [List.foldl_cons, ih (fillStep fp (dk, dv')) hnd.2 htl,
        lookupVal_fillStep_ne fp (dk, dv') k hdk]

/-! ## Claim C10 -/

/-- C10 (amended): `_ensure_prediction_params` returns a dict containing
all seven DEFAULTS keys with values that are neither `None` nor the empty
string; every input key whose value is neither `None` nor `""` keeps its
input value — except that `town` is additionally replaced by the default
whenever its value is Python-falsy (e.g. the integer 0) — and keys
missing, `None`, or empty in the input receive the default value. -/
theorem ensure_prediction_params_spec (params : Row) :
    (∀ k dv, (k, dv) ∈ DEFAULTS →
      ∃ v, lookupVal k (ensure_prediction_params params) = some v
        ∧ ¬ v = Value.pyNone ∧ ¬ v = Value.str "")
    ∧ (∀ k v, lookupVal k params = some v → ¬ v = Value.pyNone → ¬ v = Value.str "" →
        (k = "town" → v.isTruthy = true) →
        lookupVal k (ensure_prediction_params params) = some v)
    ∧ (∀ k dv, (k, dv) ∈ DEFAULTS →
        (lookupVal k params = Option.none ∨ lookupVal k params = some Value.pyNone
          ∨ lookupVal k params = some (Value.str "")) →
        lookupVal k (ensure_prediction_params params) = some dv)
    ∧ (∀ v, lookupVal "town" params = some v → v.isTruthy = false →
        lookupVal "town" (ensure_prediction_params params) = some (Value.str "ang mo kio")) := by
  have hnd : (DEFAULTS.map Prod.fst).Nodup := by decide
  have hgood : ∀ p ∈ DEFAULTS, ¬ p.2 = Value.pyNone ∧ ¬ p.2 = Value.str "" := by decide
  refine ⟨?_, ?_, ?_, ?_⟩
  · -- (A) every DEFAULTS key ends non-None, non-empty
    intro k dv hm
    simp only [ensure_prediction_params]
    rw [lookupVal_foldl_fill_mem DEFAULTS _ k dv hnd hm]
    cases hfp : lookupVal k (match lookupVal "town" params with
      | Option.none => setCol params "town" (Value.str "ang mo kio")
      | some v => if v.isTruthy then params else setCol params "town" (Value.str "ang mo kio")) with
    | none => exact ⟨dv, rfl, hgood (k, dv) hm⟩
    | some v =>
      by_cases hb : v = Value.pyNone ∨ v = Value.str ""
      · refine ⟨dv, ?_, hgood (k, dv) hm⟩
        simp [hfp, hb]
      · refine ⟨v, ?_, (not_or.mp hb).1, (not_or.mp hb).2⟩
        simp [hfp, hb]
  · -- (B) good values are kept
    intro k v hv hnn hne htown
    by_cases hk : k = "town"
    · subst hk
      have htr : v.isTruthy = true := htown rfl
      simp only [ensure_prediction_params, hv, htr, if_true]
      rw [lookupVal_foldl_fill_mem DEFAULTS params "town" (Value.str "ang mo kio") hnd
        (by decide)]
      simp [hv, hnn, hne]
    · have hadj : lookupVal k (match lookupVal "town" params with
          | Option.none => setCol params "town" (Value.str "ang mo kio")
          | some w => if w.isTruthy then params
              else setCol params "town" (Value.str "ang mo kio")) = lookupVal k params := by
        cases ht : lookupVal "town" params with
        | none => rw [lookupVal_setCol, if_neg (fun hh => hk hh.symm)]
        | some w =>
          by_cases hw : w.isTruthy
          · simp [hw]
          · simp only [hw, Bool.false_eq_true, if_false]
            rw [lookupVal_setCol, if_neg (fun hh => hk hh.symm)]
      simp only [ensure_prediction_params]
      by_cases hmem : k ∈ DEFAULTS.map Prod.fst
      · obtain ⟨p, hp, hpk⟩ := List.mem_map.mp hmem
        obtain ⟨k', dv⟩ := p
        simp only at hpk
        subst hpk
        rw [lookupVal_foldl_fill_mem DEFAULTS _ k' dv hnd hp, hadj, hv]
        simp [hnn, hne]
      · rw [lookupVal_foldl_fill_notmem DEFAULTS _ k
          (fun p hp hpk => hmem (hpk ▸ List.mem_map_of_mem Prod.fst hp)), hadj, hv]
  · -- (C) missing / None / empty values get the default
    intro k dv hm hbad
    by_cases hk : k = "town"
    · subst hk
      have hdv : dv = Value.str "ang mo kio" := by
        have h7 : ∀ p ∈ DEFAULTS, p.1 = "town" → p.2 = Value.str "ang mo kio" := by decide
        exact h7 ("town", dv) hm rfl
      subst hdv
      have hadj : lookupVal "town" (match lookupVal "town" params with
          | Option.none => setCol params "town" (Value.str "ang mo kio")
          | some w => if w.isTruthy then params
              else setCol params "town" (Value.str "ang mo kio")) =
          some (Value.str "ang mo kio") := by
        rcases hbad with h0 | h0 | h0 <;>
          simp [h0, Value.isTruthy, lookupVal_setCol]
      simp only [ensure_prediction_params]
      rw [lookupVal_foldl_fill_mem DEFAULTS _ "town" (Value.str "ang mo kio") hnd
        (by decide), hadj]
      simp
    · have hadj : lookupVal k (match lookupVal "town" params with
          | Option.none => setCol params "town" (Value.str "ang mo kio")
          | some w => if w.isTruthy then params
              else setCol params "town" (Value.str "ang mo kio")) = lookupVal k params := by
        cases ht : lookupVal "town" params with
        | none => rw [lookupVal_setCol, if_neg (fun hh => hk hh.symm)]
        | some w =>
          by_cases hw : w.isTruthy
          · simp [hw]
          · simp only [hw, Bool.false_eq_true, if_false]
            rw [lookupVal_setCol, if_neg (fun hh => hk hh.symm)]
      simp only [ensure_prediction_params]
      rw [lookupVal_foldl_fill_mem DEFAULTS _ k dv hnd hm, hadj]
      rcases hbad with h0 | h0 | h0 <;> simp [h0]
  · -- (D) a falsy town value is replaced by the default town
    intro v hv hfalsy
    have hadj : lookupVal "town" (match lookupVal "town" params with
        | Option.none => setCol params "town" (Value.str "ang mo kio")
        | some w => if w.isTruthy then params
            else setCol params "town" (Value.str "ang mo kio")) =
        some (Value.str "ang mo kio") := by
      simp [hv, hfalsy, lookupVal_setCol]
    simp only [ensure_prediction_params]
    rw [lookupVal_foldl_fill_mem DEFAULTS _ "town" (Value.str "ang mo kio") hnd
      (by decide), hadj]
    simp

/-- C10 counterexample: a falsy but non-`None`, non-empty town value
(the integer 0) is not kept — the `not final_params["town"]` check
replaces it with the default. -/
theorem ensure_falsy_town_ce :
    lookupVal "town" (ensure_prediction_params [("town", Value.int 0)])
      = some (Value.str "ang mo kio")
    ∧ ¬ (Value.int 0 = Value.pyNone) ∧ ¬ (Value.int 0 = Value.str "")
    ∧ ¬ (Value.int 0 = Value.str "ang mo kio") := by decide

/-- C10 witness: a good input value is kept. -/
theorem ensure_prediction_params_spec_witness :
    lookupVal "flat_type" (ensure_prediction_params
      [("town", Value.str "bedok"), ("flat_type", Value.str "5-room")])
      = some (Value.str "5-room") :=
  (ensure_prediction_params_spec
    [("town", Value.str "bedok"), ("flat_type", Value.str "5-room")]).2.1
    "flat_type" (Value.str "5-room") (by decide) (by decide) (by decide) (by decide)

end Govtech
